import Mathlib

/-
  Verification development for the Dida365 MCP server's OAuth2 core.

  Shallow embedding of:
    - src/src/token.ts          (token store, validation, TokenManager)
    - src/src/oauth-server.ts   (OAuthCallbackServer and the AuthStateManager
                                 module appended in the same file)
    - src/src/oauth.ts          (OAuthManager orchestration)
    - src/src/config.ts         (constants used by the above)

  Conventions of the embedding:
    - Machine time (Date.now(), unix milliseconds) is passed explicitly as
      `now : Int`.
    - The token file is modelled by `FileState`; a stored file carries the
      parsed JSON object.  A runtime JSON token object is modelled by
      `TokenData` whose fields are all `Option`s, mirroring the fact that
      `JSON.parse(...) as TokenData` can yield objects with absent fields.
    - JavaScript truthiness tests (`!x`, `x || y`) on strings and numbers are
      modelled by `falsyStr` / `falsyInt` / `orFalsy`.
    - The SHA-256 function of src/src/utils/hash.ts is kept abstract: every
      definition that hashes takes a `hash : String → String` parameter.
    - Network effects (the refresh / token-exchange fetch) are modelled by a
      `RefreshResponse` value supplied by the environment.
-/

namespace Dida365

/-- JavaScript truthiness on a nullable string: `!x` is true when the value
is absent (`null`/`undefined`) or the empty string. -/
def falsyStr : Option String → Bool
  | none => true
  | some s => s = ""

/-- JavaScript truthiness on a nullable number: `!x` is true when the value
is absent or `0`. -/
def falsyInt : Option Int → Bool
  | none => true
  | some n => n = 0

/-- JavaScript `a || b` for a nullable string `a` and a string `b`. -/
def orFalsy (a : Option String) (b : String) : String :=
  match a with
  | none => b
  | some s => if s = "" then b else s

/-- The runtime shape of a token JSON object (src/src/token.ts `TokenData`,
plus the `region` field stamped by src/src/oauth.ts line 181).  All fields
are optional at runtime because the object comes from `JSON.parse` casts. -/
structure TokenData where
  access_token : Option String := none
  refresh_token : Option String := none
  expires_at : Option Int := none
  created_at : Option Int := none
  scope : Option String := none
  token_type : Option String := none
  clientId : Option String := none
  clientSecretHash : Option String := none
  region : Option String := none
deriving DecidableEq, Repr

/-- The persisted token file (`~/.dida365-mcp/tokens.json`).  `unreadable`
models a read error, `malformed` a JSON.parse failure; `stored` holds the
JSON object the file parses to. -/
inductive FileState where
  | missing
  | unreadable
  | malformed
  | stored (td : TokenData)
deriving DecidableEq, Repr

/-- src/src/token.ts `saveToken`: serialize the record and overwrite the
file (directory creation and permission bits are I/O details outside the
model). -/
def saveToken (tokenData : TokenData) : FileState :=
  .stored tokenData

/-- src/src/token.ts `loadToken`: absent file, read failure and parse
failure all yield `null`; a parsed object missing (or with a falsy)
`access_token` or `expires_at` also yields `null`. -/
def loadToken : FileState → Option TokenData
  | .missing => none
  | .unreadable => none
  | .malformed => none
  | .stored tokenData =>
      if falsyStr tokenData.access_token || falsyInt tokenData.expires_at then
        none
      else
        some tokenData

/-- src/src/token.ts `deleteToken`: remove the file if present (a no-op
when already missing). -/
def deleteToken (_ : FileState) : FileState :=
  .missing

/-- src/src/token.ts `isTokenExpired`: `Date.now() >= expires_at - bufferSeconds*1000`.
When `expires_at` is absent the JavaScript arithmetic produces `NaN` and the
comparison is false. -/
def isTokenExpired (tokenData : TokenData) (now : Int) (bufferSeconds : Int := 300) : Bool :=
  match tokenData.expires_at with
  | some e => now ≥ e - bufferSeconds * 1000
  | none => false

/-- src/src/token.ts `validateTokenCredentials`: reject records without
client metadata, with a different clientId, or with a different secret
hash.  Note: the record's `region` field is never consulted. -/
def validateTokenCredentials (hash : String → String) (tokenData : TokenData)
    (clientId clientSecret : String) : Bool :=
  if falsyStr tokenData.clientId || falsyStr tokenData.clientSecretHash then
    false
  else if tokenData.clientId ≠ some clientId then
    false
  else if tokenData.clientSecretHash ≠ some (hash clientSecret) then
    false
  else
    true

/-- src/src/config.ts `APP_CONFIG.OAUTH.SCOPE`. -/
def OAUTH_SCOPE : String := "tasks:read tasks:write"

/-- The provider's response to the refresh-token POST of
src/src/token.ts `refreshAccessToken`: a non-2xx status with a body, or a
token JSON payload. -/
inductive RefreshResponse where
  | failure (status : Nat) (body : String)
  | success (access_token : String) (refresh_token : Option String)
      (expires_in : Int) (scope : Option String) (token_type : Option String)
deriving DecidableEq, Repr

/-- src/src/token.ts `refreshAccessToken`: POST the refresh-token grant; on
a non-ok response throw `Token refresh failed: ...`; on success build the
new record (stamped with the current client credentials) and auto-save it. -/
def refreshAccessToken (hash : String → String) (env : RefreshResponse)
    (refreshToken clientId clientSecret : String) (now : Int) :
    Except String (TokenData × FileState) :=
  match env with
  | .failure status body =>
      .error ("Token refresh failed: " ++ toString status ++ " " ++ body)
  | .success access_token refresh_token expires_in scope token_type =>
      let newTokenData : TokenData := {
        access_token := some access_token
        refresh_token := some (orFalsy refresh_token refreshToken)
        expires_at := some (now + expires_in * 1000)
        created_at := some now
        scope := some (orFalsy scope OAUTH_SCOPE)
        token_type := token_type
        clientId := some clientId
        clientSecretHash := some (hash clientSecret) }
      .ok (newTokenData, saveToken newTokenData)

/-- src/src/token.ts `TokenManager` instance state: the in-memory token
copy and the client credentials captured at construction. -/
structure TokenManager where
  tokenData : Option TokenData
  clientId : String
  clientSecret : String
deriving DecidableEq, Repr

/-- src/src/token.ts `TokenManager` constructor: load the persisted record;
if present but failing credential validation, delete the file and start
with no token.  Returns the manager together with the (possibly updated)
file state. -/
def TokenManager.construct (hash : String → String) (clientId clientSecret : String)
    (world : FileState) : TokenManager × FileState :=
  match loadToken world with
  | some loadedToken =>
      if validateTokenCredentials hash loadedToken clientId clientSecret then
        ({ tokenData := some loadedToken, clientId := clientId, clientSecret := clientSecret },
          world)
      else
        ({ tokenData := none, clientId := clientId, clientSecret := clientSecret },
          deleteToken world)
  | none =>
      ({ tokenData := none, clientId := clientId, clientSecret := clientSecret }, world)

/-- src/src/token.ts `TokenManager.getValidToken`: throw when no in-memory
token; when expired, attempt a refresh-token grant if a (truthy)
`refresh_token` exists, otherwise throw; return the access token.  The
result carries the updated manager and file state. -/
def TokenManager.getValidToken (tm : TokenManager) (hash : String → String)
    (world : FileState) (now : Int) (env : RefreshResponse) :
    Except String (Option String × TokenManager × FileState) :=
  match tm.tokenData with
  | none => .error "No token available. Please authorize first."
  | some tokenData =>
      if isTokenExpired tokenData now then
        if falsyStr tokenData.refresh_token then
          .error "Token expired and no refresh_token available. Please re-authorize."
        else
          match refreshAccessToken hash env (tokenData.refresh_token.getD "")
              tm.clientId tm.clientSecret now with
          | .error e => .error e
          | .ok (newTokenData, world2) =>
              .ok (newTokenData.access_token,
                   { tm with tokenData := some newTokenData }, world2)
      else
        .ok (tokenData.access_token, tm, world)

/-- src/src/token.ts `TokenManager.setToken`: replace the in-memory copy
and persist. -/
def TokenManager.setToken (tm : TokenManager) (tokenData : TokenData) :
    TokenManager × FileState :=
  ({ tm with tokenData := some tokenData }, saveToken tokenData)

/-- src/src/token.ts `TokenManager.hasToken`: `this.tokenData !== null` —
a pure in-memory check, the file is not consulted. -/
def TokenManager.hasToken (tm : TokenManager) : Bool :=
  tm.tokenData.isSome

/-- src/src/token.ts `TokenManager.isTokenValid`: in-memory token present
and not expired — again the file is not consulted. -/
def TokenManager.isTokenValid (tm : TokenManager) (now : Int) : Bool :=
  match tm.tokenData with
  | none => false
  | some tokenData => ¬ isTokenExpired tokenData now

/-- src/src/token.ts `TokenManager.clearToken`. -/
def TokenManager.clearToken (tm : TokenManager) (world : FileState) :
    TokenManager × FileState :=
  ({ tm with tokenData := none }, deleteToken world)

/-- Authorization state enum of the auth-state module (appended in
src/src/oauth-server.ts). -/
inductive AuthState where
  | not_authorized
  | pending
  | authorized
  | expired
  | error
deriving DecidableEq, Repr

/-- Embeds `AuthStateManager` instance state (auth-state module). -/
structure AuthStateManager where
  currentState : AuthState := .not_authorized
  authStartTime : Option Int := none
  lastError : Option String := none
deriving DecidableEq, Repr

/-- Embeds `AuthStateManager.startAuthFlow`. -/
def AuthStateManager.startAuthFlow (_ : AuthStateManager) (now : Int) : AuthStateManager :=
  { currentState := .pending, authStartTime := some now, lastError := none }

/-- Embeds `AuthStateManager.setAuthorized`. -/
def AuthStateManager.setAuthorized (_ : AuthStateManager) : AuthStateManager :=
  { currentState := .authorized, authStartTime := none, lastError := none }

/-- Embeds `AuthStateManager.setNotAuthorized`. -/
def AuthStateManager.setNotAuthorized (_ : AuthStateManager) : AuthStateManager :=
  { currentState := .not_authorized, authStartTime := none, lastError := none }

/-- Embeds `AuthStateManager.setExpired`: note the source keeps `authStartTime`
unchanged here. -/
def AuthStateManager.setExpired (a : AuthStateManager) : AuthStateManager :=
  { a with currentState := .expired, lastError := some "Token expired" }

/-- Embeds `AuthStateManager.setError`. -/
def AuthStateManager.setError (_ : AuthStateManager) (e : String) : AuthStateManager :=
  { currentState := .error, authStartTime := none, lastError := some e }

/-- Embeds `AuthStateManager.isAuthTimeout`: elapsed time since `authStartTime`
exceeds 5 minutes. -/
def AuthStateManager.isAuthTimeout (a : AuthStateManager) (now : Int) : Bool :=
  match a.authStartTime with
  | none => false
  | some t => now - t > 5 * 60 * 1000

/-- Embeds `AuthStateManager.getState`: impure in the source — a timed-out
`PENDING` self-transitions to `ERROR` before the state is returned, so the
model returns the updated manager as well. -/
def AuthStateManager.getState (a : AuthStateManager) (now : Int) :
    AuthState × AuthStateManager :=
  if a.currentState = .pending ∧ a.isAuthTimeout now then
    (.error, a.setError "Authorization timeout (exceeded 5 minutes)")
  else
    (a.currentState, a)

/-- Embeds `AuthStateManager.isAuthorized`. -/
def AuthStateManager.isAuthorized (a : AuthStateManager) (now : Int) :
    Bool × AuthStateManager :=
  let (st, a2) := a.getState now
  (st = .authorized, a2)

/-- Embeds `AuthStateManager.isPending`. -/
def AuthStateManager.isPending (a : AuthStateManager) (now : Int) :
    Bool × AuthStateManager :=
  let (st, a2) := a.getState now
  (st = .pending, a2)

/-- Embeds `AuthStateInfo` as returned by `AuthStateManager.getStateInfo` (with the
optional `auth_url` spread in by `OAuthManager.getAuthStatus`). -/
structure AuthStateInfo where
  state : AuthState
  message : String
  authorized : Bool
  error : Option String
  timestamp : Int
  auth_url : Option String := none
deriving DecidableEq, Repr

/-- Embeds `AuthStateManager.getStateInfo`: derive the human-readable message from
the (possibly self-transitioned) state. -/
def AuthStateManager.getStateInfo (a : AuthStateManager) (now : Int) :
    AuthStateInfo × AuthStateManager :=
  let (state, a2) := a.getState now
  let authorized := state = .authorized
  let message :=
    match state with
    | .not_authorized => "Not authorized. Please authorize first using get_auth_url tool."
    | .pending =>
        let elapsed : Int :=
          match a2.authStartTime with
          | some t => Int.ediv (now - t) 1000
          | none => 0
        "Waiting for authorization (" ++ toString elapsed ++ "s elapsed, timeout in "
          ++ toString (300 - elapsed) ++ "s)"
    | .authorized => "Successfully authorized"
    | .expired => "Token expired. Please re-authorize."
    | .error => "Authorization error: " ++ orFalsy a2.lastError "Unknown error"
  ({ state := state, message := message, authorized := authorized,
     error := a2.lastError, timestamp := now }, a2)

/-- A callback HTTP request as decomposed by
src/src/oauth-server.ts `handleRequest`: the pathname and the `code`,
`state`, `error`, `error_description` query parameters
(`URLSearchParams.get` yields `null` for an absent parameter). -/
structure CallbackRequest where
  pathname : String
  code : Option String := none
  state : Option String := none
  error : Option String := none
  error_description : Option String := none
deriving DecidableEq, Repr

/-- The effect of a request on the outstanding `waitForCallback` promise. -/
inductive CallbackAction where
  | resolveWith (code state : String)
  | rejectWith (msg : String)
  | noAction
deriving DecidableEq, Repr

/-- The HTTP response category produced by `handleRequest`.  Static-asset
serving (`serveStatic`) is collapsed to one category: it never touches the
pending-callback state, which is all the properties below concern. -/
inductive HttpReply where
  | staticOutcome
  | notFound
  | errorPage (msg : String)
  | successPage
deriving DecidableEq, Repr

/-- Embeds `OAuthCallbackServer` instance state: whether the listener object is
live, the pending CSRF state, and whether the resolve / reject callbacks
and the timeout timer are still installed. -/
structure CallbackServer where
  serverOpen : Bool
  pendingState : Option String
  hasResolve : Bool
  hasReject : Bool
  timeoutArmed : Bool
deriving DecidableEq, Repr

/-- The synchronous prefix of `OAuthCallbackServer.waitForCallback`: record
the expected state, install resolve/reject, create the listener and arm the
timeout. -/
def CallbackServer.start (state : String) : CallbackServer :=
  { serverOpen := true, pendingState := some state,
    hasResolve := true, hasReject := true, timeoutArmed := true }

/-- Embeds `OAuthCallbackServer.close`: clear the timer, the listener, the pending
state and both callbacks. -/
def CallbackServer.close (_ : CallbackServer) : CallbackServer :=
  { serverOpen := false, pendingState := none,
    hasResolve := false, hasReject := false, timeoutArmed := false }

/-- Embeds `String.startsWith`, restated on the character-list model of strings
(so that it evaluates inside proofs): the second string is a prefix of the
first. -/
def startsWithPath (s pre : String) : Bool :=
  pre.data.isPrefixOf s.data

/-- Embeds `OAuthCallbackServer.handleRequest`: static paths are served without
touching the callback state; non-callback paths get a 404; an `error`
parameter, missing `code`/`state`, or a CSRF state mismatch reject the
pending promise (when a reject callback is installed) and close the server;
a matching callback resolves the promise (the close is delayed 2 s in the
source, so the state is returned unchanged). -/
def CallbackServer.handleRequest (s : CallbackServer) (req : CallbackRequest) :
    CallbackServer × CallbackAction × HttpReply :=
  if startsWithPath req.pathname "/static/" then
    (s, .noAction, .staticOutcome)
  else if req.pathname ≠ "/callback" then
    (s, .noAction, .notFound)
  else if ¬ falsyStr req.error then
    let errorMsg := orFalsy req.error_description (req.error.getD "")
    let act := if s.hasReject then
        CallbackAction.rejectWith ("Authorization failed: " ++ errorMsg)
      else CallbackAction.noAction
    (s.close, act, .errorPage ("Authorization failed: " ++ errorMsg))
  else if falsyStr req.code ∨ falsyStr req.state then
    let act := if s.hasReject then
        CallbackAction.rejectWith "Missing code or state parameter"
      else CallbackAction.noAction
    (s.close, act, .errorPage "Missing required parameters (code or state)")
  else if req.state ≠ s.pendingState then
    let act := if s.hasReject then
        CallbackAction.rejectWith "CSRF validation failed: state mismatch"
      else CallbackAction.noAction
    (s.close, act, .errorPage "Invalid state parameter (CSRF protection)")
  else
    let act := if s.hasResolve then
        CallbackAction.resolveWith (req.code.getD "") (req.state.getD "")
      else CallbackAction.noAction
    (s, act, .successPage)

/-- Whether an action rejects the pending promise. -/
def isRejectAction : CallbackAction → Bool
  | .rejectWith _ => true
  | _ => false

/-- Whether an action resolves the pending promise. -/
def isResolveAction : CallbackAction → Bool
  | .resolveWith _ _ => true
  | _ => false

/-- A server whose listener, pending state and callbacks have all been
cleared (the post-state of `close`). -/
def CallbackServer.isCleared (s : CallbackServer) : Bool :=
  s.serverOpen = false ∧ s.pendingState = none ∧ s.hasResolve = false
    ∧ s.hasReject = false ∧ s.timeoutArmed = false

/-- Feed a sequence of requests to the server, collecting the callback
actions they trigger. -/
def CallbackServer.handleRequests (s : CallbackServer) :
    List CallbackRequest → CallbackServer × List CallbackAction
  | [] => (s, [])
  | req :: rest =>
      let (s2, act, _) := s.handleRequest req
      let (s3, acts) := s2.handleRequests rest
      (s3, act :: acts)

/-- src/src/config.ts `OAuth2Config`. -/
structure OAuth2Config where
  clientId : String
  clientSecret : String
  redirectUri : String
  scope : String
  authEndpoint : String
  tokenEndpoint : String
deriving DecidableEq, Repr

/-- The validation context consumed by src/src/oauth.ts (fields read at
oauth.ts lines 180-181). -/
structure TokenValidationContext where
  clientId : String
  clientSecretHash : String
  region : String
deriving DecidableEq, Repr

/-- Modelled from the spec: `createValidationContext` is imported by
src/src/oauth.ts from the token module, but the token-module revision that
defines it is not in src/.  Per spec section 4.1 it hashes the secret once
and packages the `(clientId, clientSecretFingerprint, region)` triple. -/
def createValidationContext (hash : String → String)
    (clientId clientSecret region : String) : TokenValidationContext :=
  { clientId := clientId, clientSecretHash := hash clientSecret, region := region }

/-- src/src/oauth.ts `OAuthManager` instance state.  `serversStarted`
counts `new OAuthCallbackServer()` constructions (ghost field used to state
that no second callback server is started). -/
structure OAuthManager where
  config : OAuth2Config
  validationContext : TokenValidationContext
  tokenManager : TokenManager
  stateManager : AuthStateManager
  callbackServer : Option CallbackServer
  serversStarted : Nat
  currentState : Option String
  currentAuthUrl : Option String
deriving DecidableEq, Repr

/-- src/src/oauth.ts `OAuthManager` constructor: build the validation
context for the configured region, construct the `TokenManager` on the
configured client credentials (the in-src `TokenManager` constructor,
src/src/token.ts lines 209-231, consumes the clientId/clientSecret pair and
performs no region-based check), and mark the state machine authorized only
when a valid unexpired token was loaded. -/
def OAuthManager.construct (hash : String → String) (config : OAuth2Config)
    (region : String) (world : FileState) (now : Int) : OAuthManager × FileState :=
  let ctx := createValidationContext hash config.clientId config.clientSecret region
  let (tm, world2) := TokenManager.construct hash config.clientId config.clientSecret world
  let sm0 : AuthStateManager := {}
  let sm1 := if tm.hasToken ∧ tm.isTokenValid now then sm0.setAuthorized else sm0
  ({ config := config, validationContext := ctx, tokenManager := tm,
     stateManager := sm1, callbackServer := none, serversStarted := 0,
     currentState := none, currentAuthUrl := none }, world2)

/-- The authorization URL built by src/src/oauth.ts `getAuthorizationUrl`
(the `URLSearchParams` percent-encoding is abstracted to plain
concatenation; the parameter order matches insertion order). -/
def buildAuthUrl (config : OAuth2Config) (st : String) : String :=
  config.authEndpoint ++ "?client_id=" ++ config.clientId
    ++ "&redirect_uri=" ++ config.redirectUri
    ++ "&response_type=code&scope=" ++ config.scope
    ++ "&state=" ++ st

/-- src/src/oauth.ts `getAuthorizationUrl`: when a valid pending request
exists (state machine pending, URL and state both non-null), return the
stored URL unchanged; otherwise clean up any inconsistent pending state,
generate a new CSRF state (`freshState` stands for the 32 random bytes),
build the URL, start a callback server and transition to pending. -/
def OAuthManager.getAuthorizationUrl (m : OAuthManager) (freshState : String)
    (now : Int) : String × OAuthManager :=
  let gs1 := m.stateManager.getState now
  let m1 := { m with stateManager := gs1.2 }
  if gs1.1 = AuthState.pending ∧ m1.currentAuthUrl.isSome ∧ m1.currentState.isSome then
    (m1.currentAuthUrl.getD "", m1)
  else
    let gs2 := m1.stateManager.getState now
    let m2 := { m1 with stateManager := gs2.2 }
    let m3 :=
      if gs2.1 = AuthState.pending then
        { m2 with callbackServer := none, currentState := none, currentAuthUrl := none }
      else m2
    let authUrl := buildAuthUrl m3.config freshState
    (authUrl,
     { m3 with
        currentState := some freshState
        currentAuthUrl := some authUrl
        callbackServer := some (CallbackServer.start freshState)
        serversStarted := m3.serversStarted + 1
        stateManager := m3.stateManager.startAuthFlow now })

/-- src/src/oauth.ts `getValidAccessToken`: delegate to the token manager;
on success force the state machine to authorized; on failure downgrade it
to expired (token present) or not-authorized (no token) and re-raise. -/
def OAuthManager.getValidAccessToken (m : OAuthManager) (hash : String → String)
    (world : FileState) (now : Int) (env : RefreshResponse) :
    Except String (Option String) × OAuthManager × FileState :=
  match m.tokenManager.getValidToken hash world now env with
  | .ok (token, tm2, world2) =>
      let m2 := { m with tokenManager := tm2 }
      let (isAuth, sm2) := m2.stateManager.isAuthorized now
      let m3 := { m2 with stateManager := if isAuth then sm2 else sm2.setAuthorized }
      (.ok token, m3, world2)
  | .error e =>
      let sm2 :=
        if m.tokenManager.hasToken then m.stateManager.setExpired
        else m.stateManager.setNotAuthorized
      (.error e, { m with stateManager := sm2 }, world)

/-- src/src/oauth.ts `getAuthStatus`: when the state machine believes it is
authorized, reconcile against the token manager (vanished token downgrades
to not-authorized, expired token to expired); then return the state info,
spreading in the pending authorization URL when pending. -/
def OAuthManager.getAuthStatus (m : OAuthManager) (now : Int) :
    AuthStateInfo × OAuthManager :=
  let (isAuth, smA) := m.stateManager.isAuthorized now
  let mA := { m with stateManager := smA }
  let mB :=
    if isAuth then
      if ¬ mA.tokenManager.hasToken then
        { mA with stateManager := smA.setNotAuthorized }
      else if ¬ mA.tokenManager.isTokenValid now then
        { mA with stateManager := smA.setExpired }
      else mA
    else mA
  let (info, smB) := mB.stateManager.getStateInfo now
  let mC := { mB with stateManager := smB }
  if info.state = .pending ∧ ¬ falsyStr mC.currentAuthUrl then
    ({ info with auth_url := mC.currentAuthUrl }, mC)
  else
    (info, mC)

/-- src/src/oauth.ts `revokeAuthorization`: clear the token, force
not-authorized, close any callback server and drop the pending fields. -/
def OAuthManager.revokeAuthorization (m : OAuthManager) (world : FileState) :
    OAuthManager × FileState :=
  let (tm2, world2) := m.tokenManager.clearToken world
  ({ m with
      tokenManager := tm2
      stateManager := m.stateManager.setNotAuthorized
      callbackServer := none
      currentState := none
      currentAuthUrl := none }, world2)

/-- The pure content of src/src/oauth.ts `isValidPendingState` at a given
instant: pending, not timed out, and both the URL and the CSRF state are
recorded. -/
def OAuthManager.validPendingAt (m : OAuthManager) (now : Int) : Bool :=
  m.stateManager.currentState = AuthState.pending
    ∧ ¬ m.stateManager.isAuthTimeout now
    ∧ m.currentAuthUrl.isSome
    ∧ m.currentState.isSome

/-! Concrete fixtures used by counterexamples and witnesses. -/

/-- A concrete stand-in for the abstract SHA-256 parameter, used when a
property is evaluated at a specific input. -/
def idHash : String → String := fun s => s

/-- A sample OAuth2 configuration (china-region endpoints of
src/src/config.ts). -/
def sampleConfig : OAuth2Config :=
  { clientId := "cid"
    clientSecret := "sec"
    redirectUri := "http://localhost:8521/callback"
    scope := OAUTH_SCOPE
    authEndpoint := "https://dida365.com/oauth/authorize"
    tokenEndpoint := "https://dida365.com/oauth/token" }

/-- A reference instant (unix ms). -/
def sampleNow : Int := 1000000000000

/-- A well-formed token record stamped with `sampleConfig`'s credentials
under `idHash`, expired long before `sampleNow`, with no refresh token
(`refresh_token` is the empty string, which is falsy in JavaScript). -/
def expiredRecord : TokenData :=
  { access_token := some "tok"
    refresh_token := some ""
    expires_at := some 1000
    created_at := some 500
    scope := some "s"
    clientId := some "cid"
    clientSecretHash := some "sec" }

/-- A well-formed unexpired token record stamped with `sampleConfig`'s
credentials and with the `region` field set to `china` (as
src/src/oauth.ts `exchangeCodeForToken` stamps it). -/
def chinaRecord : TokenData :=
  { expiredRecord with expires_at := some 2000000000000, region := some "china" }

/-- An expired record that carries a (truthy) refresh token. -/
def refreshableRecord : TokenData :=
  { expiredRecord with refresh_token := some "r" }

/-! ### C8 — corruption tolerance of the token store -/

/-- Claim C8 (confirmed): for every token-file content that is missing,
unreadable, not valid JSON, or valid JSON lacking (falsy) either mandatory
field, `loadToken` returns `none` rather than raising. -/
theorem c8_corruption_tolerance (fs : FileState)
    (h : fs = FileState.missing ∨ fs = FileState.unreadable ∨ fs = FileState.malformed ∨
         ∃ td, fs = FileState.stored td ∧
           (falsyStr td.access_token = true ∨ falsyInt td.expires_at = true)) :
    loadToken fs = none := by
  rcases h with h | h | h | ⟨td, h, hbad⟩ <;> subst h
  · rfl
  · rfl
  · rfl
  · rcases hbad with hbad | hbad <;> simp [loadToken, hbad]

/-- Witness for C8: a stored JSON object with no fields at all loads as
absent. -/
theorem c8_corruption_tolerance_witness :
    loadToken (FileState.stored {}) = none :=
  c8_corruption_tolerance (FileState.stored {})
    (Or.inr (Or.inr (Or.inr ⟨{}, rfl, Or.inl rfl⟩)))

/-! ### C9 — save/load round trip -/

/-- A full token record whose `access_token` is the empty string. -/
def emptyAccessRecord : TokenData :=
  { expiredRecord with access_token := some "" }

/-- Counterexample to claim C9 as stated: a record whose `access_token` is
the empty string survives `saveToken` but `loadToken` then returns `none`
(the mandatory-field check is a JavaScript truthiness test), so the loaded
value is not a record equal to the input. -/
theorem c9_round_trip_cx :
    loadToken (saveToken emptyAccessRecord) = none ∧
      loadToken (saveToken emptyAccessRecord) ≠ some emptyAccessRecord := by
  constructor
  · rfl
  · intro h
    simp [loadToken, saveToken, emptyAccessRecord, falsyStr, expiredRecord] at h

/-- Claim C9 (corrected): for every token record whose `access_token` is
present and non-empty and whose `expires_at` is present and non-zero,
`saveToken` followed by `loadToken` returns the identical record. -/
theorem c9_round_trip_amended (td : TokenData)
    (hAcc : falsyStr td.access_token = false) (hExp : falsyInt td.expires_at = false) :
    loadToken (saveToken td) = some td := by
  simp [loadToken, saveToken, hAcc, hExp]

/-- Witness for the amended C9 at a concrete record. -/
theorem c9_round_trip_amended_witness :
    falsyStr expiredRecord.access_token = false ∧
      loadToken (saveToken expiredRecord) = some expiredRecord :=
  ⟨by decide, c9_round_trip_amended expiredRecord (by decide) (by decide)⟩

/-! ### C4 — behaviour of `getValidToken` on an expired record -/

/-- The record produced by `refreshAccessToken` from `refreshableRecord`
under `idHash` at instant 1000000 with a successful provider response. -/
def refreshedRecord : TokenData :=
  { access_token := some "newtok"
    refresh_token := some "newr"
    expires_at := some 4600000
    created_at := some 1000000
    scope := some OAUTH_SCOPE
    token_type := some "bearer"
    clientId := some "cid"
    clientSecretHash := some "sec" }

/-- Counterexample to claim C4 as stated: for an expired, context-matching
record that carries a refresh token, `getValidToken` does not fail with a
TokenExpired error — it performs the refresh-token grant and returns the
refreshed access token (persisting the new record). -/
theorem c4_refresh_grant_attempted_cx :
    (TokenManager.construct idHash "cid" "sec" (FileState.stored refreshableRecord)).1.getValidToken
        idHash (FileState.stored refreshableRecord) 1000000
        (RefreshResponse.success "newtok" (some "newr") 3600 none (some "bearer"))
      = Except.ok (some "newtok",
          { tokenData := some refreshedRecord, clientId := "cid", clientSecret := "sec" },
          FileState.stored refreshedRecord) := by
  rfl

/-- Claim C4 (corrected): when the in-memory record is past expiry (minus
the safety buffer) and has no (truthy) refresh token, `getValidToken` fails
with the TokenExpired error and performs no refresh — the result is the
same for every provider environment `env`. -/
theorem c4_expired_without_refresh_amended (hash : String → String)
    (tm : TokenManager) (world : FileState) (now : Int) (env : RefreshResponse)
    (td : TokenData) (hTd : tm.tokenData = some td)
    (hRt : falsyStr td.refresh_token = true)
    (hExpired : isTokenExpired td now = true) :
    tm.getValidToken hash world now env
      = Except.error "Token expired and no refresh_token available. Please re-authorize." := by
  simp [TokenManager.getValidToken, hTd, hExpired, hRt]

/-- Witness for the amended C4 at a concrete expired record without a
refresh token. -/
theorem c4_expired_without_refresh_amended_witness :
    falsyStr expiredRecord.refresh_token = true ∧
      TokenManager.getValidToken
          { tokenData := some expiredRecord, clientId := "cid", clientSecret := "sec" }
          idHash FileState.missing sampleNow (RefreshResponse.failure 500 "boom")
        = Except.error "Token expired and no refresh_token available. Please re-authorize." :=
  ⟨by decide,
   c4_expired_without_refresh_amended idHash
     { tokenData := some expiredRecord, clientId := "cid", clientSecret := "sec" }
     FileState.missing sampleNow (RefreshResponse.failure 500 "boom")
     expiredRecord rfl (by decide) (by decide)⟩

/-! ### C5 — expiry-buffer boundary -/

/-- A record one millisecond short of the 5-minute safety buffer at instant
1000000, carrying a refresh token. -/
def boundaryRecordWithRefresh : TokenData :=
  { refreshableRecord with expires_at := some (1000000 + 300 * 1000 - 1) }

/-- Counterexample to claim C5 as stated: at `expiresAt = now + buffer − 1`
a record that carries a refresh token does not make `getValidToken` fail
with TokenExpired — the refresh-token grant runs and (here) succeeds. -/
theorem c5_boundary_with_refresh_cx :
    (TokenManager.getValidToken
        { tokenData := some boundaryRecordWithRefresh, clientId := "cid", clientSecret := "sec" }
        idHash (FileState.stored boundaryRecordWithRefresh) 1000000
        (RefreshResponse.success "newtok" (some "newr") 3600 none (some "bearer"))).isOk
      = true := by
  decide

/-- Claim C5 (corrected): for an in-memory record with no (truthy) refresh
token, `expiresAt = now + 300000 − 1` (one ms inside the 5-minute buffer)
makes `getValidToken` fail with the TokenExpired error, while
`expiresAt = now + 300000 + 1` makes it succeed with the stored access
token — the validity test is `now ≥ expiresAt − buffer` in milliseconds. -/
theorem c5_expiry_buffer_amended (hash : String → String)
    (tm : TokenManager) (world : FileState) (now : Int) (env : RefreshResponse)
    (td : TokenData) (hTd : tm.tokenData = some td) :
    (falsyStr td.refresh_token = true →
      td.expires_at = some (now + 300 * 1000 - 1) →
        tm.getValidToken hash world now env
          = Except.error "Token expired and no refresh_token available. Please re-authorize.")
    ∧ (td.expires_at = some (now + 300 * 1000 + 1) →
        tm.getValidToken hash world now env
          = Except.ok (td.access_token, tm, world)) := by
  constructor
  · intro hRt hExp
    have hExpired : isTokenExpired td now = true := by
      simp [isTokenExpired, hExp]
    simp [TokenManager.getValidToken, hTd, hExpired, hRt]
  · intro hExp
    have hFresh : isTokenExpired td now = false := by
      simp [isTokenExpired, hExp]
    simp [TokenManager.getValidToken, hTd, hFresh]

/-- Witness for the amended C5: both halves evaluated at concrete records
one millisecond on either side of the buffer. -/
theorem c5_expiry_buffer_amended_witness :
    (TokenManager.getValidToken
        { tokenData := some { expiredRecord with expires_at := some 1299999 },
          clientId := "cid", clientSecret := "sec" }
        idHash FileState.missing 1000000 (RefreshResponse.failure 500 "boom")
      = Except.error "Token expired and no refresh_token available. Please re-authorize.")
    ∧ (TokenManager.getValidToken
        { tokenData := some { expiredRecord with expires_at := some 1300001 },
          clientId := "cid", clientSecret := "sec" }
        idHash FileState.missing 1000000 (RefreshResponse.failure 500 "boom")
      = Except.ok (some "tok",
          { tokenData := some { expiredRecord with expires_at := some 1300001 },
            clientId := "cid", clientSecret := "sec" },
          FileState.missing)) :=
  ⟨(c5_expiry_buffer_amended idHash
      { tokenData := some { expiredRecord with expires_at := some 1299999 },
        clientId := "cid", clientSecret := "sec" }
      FileState.missing 1000000 (RefreshResponse.failure 500 "boom")
      { expiredRecord with expires_at := some 1299999 } rfl).1 (by decide) (by decide),
   (c5_expiry_buffer_amended idHash
      { tokenData := some { expiredRecord with expires_at := some 1300001 },
        clientId := "cid", clientSecret := "sec" }
      FileState.missing 1000000 (RefreshResponse.failure 500 "boom")
      { expiredRecord with expires_at := some 1300001 } rfl).2 (by decide)⟩

/-! ### C2 — the in-memory token cache -/

/-- A well-formed record stamped with the sample credentials and unexpired
at `sampleNow`. -/
def freshRecord : TokenData :=
  { expiredRecord with expires_at := some 2000000000000 }

/-- Evaluation of claim C2's failing scenario (code bug): a `TokenManager`
constructed over a stored valid record answers `hasToken = true` and
`isTokenValid = true` from its in-memory `tokenData` copy; neither method
takes the file state as an input at all, so an external deletion of the
token file (`loadToken FileState.missing = none`) cannot be reflected,
contradicting both the claim and the documentation of
src/src/oauth.ts `getAuthStatus` (real-time file-system validation). -/
theorem c2_in_memory_cache_divergence :
    (TokenManager.construct idHash "cid" "sec" (FileState.stored freshRecord)).1.hasToken = true
    ∧ (TokenManager.construct idHash "cid" "sec" (FileState.stored freshRecord)).1.isTokenValid
        sampleNow = true
    ∧ loadToken FileState.missing = none := by
  decide

/-! ### C1 — credential binding at construction -/

/-- A record stamped under one context fails `validateTokenCredentials`
against a context with a different clientId or a different secret hash. -/
lemma validateTokenCredentials_false_of_mismatch (hash : String → String)
    (td : TokenData) (c1 s1 cid cs : String)
    (hCid : td.clientId = some c1) (hSec : td.clientSecretHash = some (hash s1))
    (hDiff : c1 ≠ cid ∨ hash s1 ≠ hash cs) :
    validateTokenCredentials hash td cid cs = false := by
  unfold validateTokenCredentials
  split_ifs with h1 h2 h3
  · rfl
  · rfl
  · rfl
  · exfalso
    push_neg at h2 h3
    rw [hCid] at h2
    rw [hSec] at h3
    rcases hDiff with h | h
    · exact h (Option.some_injective _ h2)
    · exact h (Option.some_injective _ h3)

/-- Claim C1 (corrected): a loadable token record stamped with a clientId
or secret hash different from the constructing process's configuration is
deleted at construction, and `getValidToken` then fails with the NoToken
error for every instant and provider environment — but the record's region
is not part of the validation (see the counterexample). -/
theorem c1_credential_binding_amended (hash : String → String)
    (config : OAuth2Config) (region : String) (rec : TokenData) (c1 s1 : String)
    (now now2 : Int) (world2 : FileState) (env : RefreshResponse)
    (hAcc : falsyStr rec.access_token = false) (hExpF : falsyInt rec.expires_at = false)
    (hCid : rec.clientId = some c1) (hSec : rec.clientSecretHash = some (hash s1))
    (hDiff : c1 ≠ config.clientId ∨ hash s1 ≠ hash config.clientSecret) :
    (OAuthManager.construct hash config region (FileState.stored rec) now).1.tokenManager.tokenData = none
    ∧ (OAuthManager.construct hash config region (FileState.stored rec) now).2 = FileState.missing
    ∧ (OAuthManager.construct hash config region (FileState.stored rec) now).1.tokenManager.getValidToken
        hash world2 now2 env = Except.error "No token available. Please authorize first." := by
  have hLoad : loadToken (FileState.stored rec) = some rec := by
    simp [loadToken, hAcc, hExpF]
  have hVal := validateTokenCredentials_false_of_mismatch hash rec c1 s1
    config.clientId config.clientSecret hCid hSec hDiff
  refine ⟨?_, ?_, ?_⟩ <;>
    simp [OAuthManager.construct, TokenManager.construct, hLoad, hVal, deleteToken,
      TokenManager.getValidToken, TokenManager.hasToken]

/-- A configuration differing from `sampleConfig` only in its clientId. -/
def altConfig : OAuth2Config := { sampleConfig with clientId := "cid2" }

/-- Witness for the amended C1: a record stamped for clientId `cid` is
discarded by a process configured with clientId `cid2`. -/
theorem c1_credential_binding_amended_witness :
    ("cid" ≠ "cid2" ∨ idHash "sec" ≠ idHash altConfig.clientSecret)
    ∧ ((OAuthManager.construct idHash altConfig "china" (FileState.stored chinaRecord) sampleNow).1.tokenManager.tokenData = none
      ∧ (OAuthManager.construct idHash altConfig "china" (FileState.stored chinaRecord) sampleNow).2 = FileState.missing
      ∧ (OAuthManager.construct idHash altConfig "china" (FileState.stored chinaRecord) sampleNow).1.tokenManager.getValidToken
          idHash FileState.missing sampleNow (RefreshResponse.failure 0 "")
          = Except.error "No token available. Please authorize first.") :=
  ⟨Or.inl (by decide),
   c1_credential_binding_amended idHash altConfig "china" chinaRecord "cid" "sec"
     sampleNow sampleNow FileState.missing (RefreshResponse.failure 0 "")
     (by decide) (by decide) rfl rfl (Or.inl (by decide))⟩

/-- Counterexample to claim C1 as stated: a record persisted under region
`china` (with matching clientId and secret) is neither deleted nor rejected
by a process constructed for region `international` — `getValidToken`
returns that record's access token, because src/src/token.ts
`validateTokenCredentials` never consults the region. -/
theorem c1_region_not_validated_cx :
    (OAuthManager.construct idHash sampleConfig "international"
        (FileState.stored chinaRecord) sampleNow).2 = FileState.stored chinaRecord
    ∧ (OAuthManager.construct idHash sampleConfig "international"
        (FileState.stored chinaRecord) sampleNow).1.validationContext.region = "international"
    ∧ chinaRecord.region = some "china"
    ∧ (OAuthManager.construct idHash sampleConfig "international"
        (FileState.stored chinaRecord) sampleNow).1.tokenManager.getValidToken
        idHash (FileState.stored chinaRecord) sampleNow (RefreshResponse.failure 0 "")
      = Except.ok (some "tok",
          (OAuthManager.construct idHash sampleConfig "international"
            (FileState.stored chinaRecord) sampleNow).1.tokenManager,
          FileState.stored chinaRecord) :=
  ⟨rfl, rfl, rfl, rfl⟩

/-! ### C3 — startup over an expired persisted token -/

/-- Counterexample to claim C3 as stated: for a process started over an
expired, context-matching record, `isTokenValid` is false as claimed, but
`getAuthStatus().state` is `not_authorized`, not `expired` — the
expired-downgrade in src/src/oauth.ts `getAuthStatus` only runs when the
state machine is currently authorized, and the constructor never sets
authorized for an expired token. -/
theorem c3_startup_expired_cx :
    ((OAuthManager.construct idHash sampleConfig "china"
        (FileState.stored expiredRecord) sampleNow).1.tokenManager.isTokenValid sampleNow = false)
    ∧ (((OAuthManager.construct idHash sampleConfig "china"
        (FileState.stored expiredRecord) sampleNow).1.getAuthStatus sampleNow).1.state
        = AuthState.not_authorized)
    ∧ AuthState.not_authorized ≠ AuthState.expired := by
  refine ⟨by decide, by decide, by decide⟩

/-- Claim C3 (corrected): for a process started while an expired,
context-matching, loadable record is persisted, `isTokenValid()` is false
and `getAuthStatus().state` is `not_authorized` (not `expired`). -/
theorem c3_startup_expired_amended (hash : String → String)
    (config : OAuth2Config) (region : String) (rec : TokenData) (now : Int)
    (hAcc : falsyStr rec.access_token = false) (hExpF : falsyInt rec.expires_at = false)
    (hCid : rec.clientId = some config.clientId) (hCidT : config.clientId ≠ "")
    (hSec : rec.clientSecretHash = some (hash config.clientSecret))
    (hSecT : hash config.clientSecret ≠ "")
    (hExpired : isTokenExpired rec now = true) :
    ((OAuthManager.construct hash config region (FileState.stored rec) now).1.tokenManager.isTokenValid
        now = false)
    ∧ (((OAuthManager.construct hash config region (FileState.stored rec) now).1.getAuthStatus
        now).1.state = AuthState.not_authorized) := by
  have hLoad : loadToken (FileState.stored rec) = some rec := by
    simp [loadToken, hAcc, hExpF]
  have hVal : validateTokenCredentials hash rec config.clientId config.clientSecret = true := by
    simp [validateTokenCredentials, hCid, hSec, falsyStr, hCidT, hSecT]
  constructor
  · simp [OAuthManager.construct, TokenManager.construct, hLoad, hVal,
      TokenManager.isTokenValid, hExpired]
  · simp [OAuthManager.construct, TokenManager.construct, hLoad, hVal,
      OAuthManager.getAuthStatus, TokenManager.hasToken, TokenManager.isTokenValid, hExpired,
      AuthStateManager.isAuthorized, AuthStateManager.getState, AuthStateManager.getStateInfo,
      AuthStateManager.isAuthTimeout, AuthStateManager.setAuthorized, falsyStr]

/-- Witness for the amended C3 at the concrete expired record. -/
theorem c3_startup_expired_amended_witness :
    isTokenExpired expiredRecord sampleNow = true
    ∧ (((OAuthManager.construct idHash sampleConfig "china"
          (FileState.stored expiredRecord) sampleNow).1.tokenManager.isTokenValid sampleNow = false)
      ∧ (((OAuthManager.construct idHash sampleConfig "china"
          (FileState.stored expiredRecord) sampleNow).1.getAuthStatus sampleNow).1.state
          = AuthState.not_authorized)) :=
  ⟨by decide,
   c3_startup_expired_amended idHash sampleConfig "china" expiredRecord sampleNow
     (by decide) (by decide) rfl (by decide) rfl (by decide) (by decide)⟩

/-! ### C6 — CSRF rejection -/

/-- Claim C6 (confirmed): while a request is pending (expected CSRF state
recorded, reject callback installed), any callback-path request whose
`state` parameter differs from the expected state triggers a rejection of
the pending promise and never a resolution with that request's code. -/
theorem c6_csrf_rejection (s : CallbackServer) (req : CallbackRequest)
    (expected v : String)
    (hPend : s.pendingState = some expected) (hRej : s.hasReject = true)
    (hPath : req.pathname = "/callback") (hState : req.state = some v)
    (hNe : v ≠ expected) :
    isRejectAction (s.handleRequest req).2.1 = true
    ∧ isResolveAction (s.handleRequest req).2.1 = false := by
  obtain ⟨pathname, code, state, error, errd⟩ := req
  simp only at hPath hState
  subst hPath
  subst hState
  have hsw : startsWithPath "/callback" "/static/" = false := by decide
  have hMismatch : some v ≠ s.pendingState := by
    rw [hPend]
    intro h
    exact hNe (Option.some_injective _ h)
  by_cases hE : falsyStr error = true
  · by_cases hCS : falsyStr code = true ∨ falsyStr (some v) = true
    · simp [CallbackServer.handleRequest, hsw, hE, hCS, hRej,
        isRejectAction, isResolveAction]
    · simp [CallbackServer.handleRequest, hsw, hE, hCS, hMismatch, hRej,
        isRejectAction, isResolveAction]
  · simp only [Bool.not_eq_true] at hE
    simp [CallbackServer.handleRequest, hsw, hE, hRej,
      isRejectAction, isResolveAction]

/-- Witness for C6: a pending server rejects a concrete mismatched
callback. -/
theorem c6_csrf_rejection_witness :
    ("evil" ≠ "good")
    ∧ (isRejectAction ((CallbackServer.start "good").handleRequest
          { pathname := "/callback", code := some "c", state := some "evil" }).2.1 = true
      ∧ isResolveAction ((CallbackServer.start "good").handleRequest
          { pathname := "/callback", code := some "c", state := some "evil" }).2.1 = false) :=
  ⟨by decide,
   c6_csrf_rejection (CallbackServer.start "good")
     { pathname := "/callback", code := some "c", state := some "evil" }
     "good" "evil" rfl rfl rfl rfl (by decide)⟩

/-! ### C10 — the callback server is single-shot on failure -/

/-- Once the server is cleared, no request resolves the promise and the
server stays cleared. -/
lemma handleRequest_cleared (s : CallbackServer) (req : CallbackRequest)
    (h : s.isCleared = true) :
    isResolveAction (s.handleRequest req).2.1 = false
    ∧ (s.handleRequest req).1.isCleared = true := by
  simp only [CallbackServer.isCleared, decide_eq_true_eq] at h
  obtain ⟨hOpen, hPend, hRes, hRej, hTim⟩ := h
  simp only [CallbackServer.handleRequest]
  split_ifs with h1 h2 h3 h4 h5 <;>
    simp_all [isResolveAction, CallbackServer.close, CallbackServer.isCleared]

/-- Once the server is cleared, no request in any subsequent sequence ever
resolves the promise. -/
lemma handleRequests_cleared_no_resolve (reqs : List CallbackRequest)
    (s : CallbackServer) (h : s.isCleared = true) :
    (∀ a ∈ (s.handleRequests reqs).2, isResolveAction a = false)
    ∧ (s.handleRequests reqs).1.isCleared = true := by
  induction reqs generalizing s with
  | nil =>
      refine ⟨?_, h⟩
      intro a ha
      simp [CallbackServer.handleRequests] at ha
  | cons req rest ih =>
      obtain ⟨hAct, hNext⟩ := handleRequest_cleared s req h
      obtain ⟨hAll, hFinal⟩ := ih (s.handleRequest req).1 hNext
      refine ⟨?_, ?_⟩
      · intro a ha
        simp only [CallbackServer.handleRequests, List.mem_cons] at ha
        rcases ha with rfl | ha
        · exact hAct
        · exact hAll a ha
      · simpa [CallbackServer.handleRequests] using hFinal

/-- Claim C10 (confirmed): a callback-path request that fails (explicit
`error` parameter, missing/falsy `code` or `state`, or a CSRF state
mismatch) rejects the pending promise and immediately closes and clears the
server, after which no later request — with any parameters — can ever
resolve the `waitForCallback` promise of that authorization attempt. -/
theorem c10_single_shot_on_failure (s : CallbackServer) (req : CallbackRequest)
    (reqs : List CallbackRequest)
    (hRej : s.hasReject = true) (hPath : req.pathname = "/callback")
    (hCond : falsyStr req.error = false ∨ falsyStr req.code = true
      ∨ falsyStr req.state = true ∨ req.state ≠ s.pendingState) :
    isRejectAction (s.handleRequest req).2.1 = true
    ∧ (s.handleRequest req).1.isCleared = true
    ∧ ∀ a ∈ ((s.handleRequest req).1.handleRequests reqs).2, isResolveAction a = false := by
  have hMain : isRejectAction (s.handleRequest req).2.1 = true
      ∧ (s.handleRequest req).1.isCleared = true := by
    obtain ⟨pathname, code, state, error, errd⟩ := req
    simp only at hPath hCond
    subst hPath
    have hsw : startsWithPath "/callback" "/static/" = false := by decide
    by_cases hE : falsyStr error = true
    · by_cases hCS : falsyStr code = true ∨ falsyStr state = true
      · simp [CallbackServer.handleRequest, hsw, hE, hCS, hRej,
          isRejectAction, CallbackServer.close, CallbackServer.isCleared]
      · have hMis : state ≠ s.pendingState := by
          rcases hCond with hc | hc | hc | hc
          · rw [hE] at hc; cases hc
          · exact absurd (Or.inl hc) hCS
          · exact absurd (Or.inr hc) hCS
          · exact hc
        simp [CallbackServer.handleRequest, hsw, hE, hCS, hMis, hRej,
          isRejectAction, CallbackServer.close, CallbackServer.isCleared]
    · simp only [Bool.not_eq_true] at hE
      simp [CallbackServer.handleRequest, hsw, hE, hRej,
        isRejectAction, CallbackServer.close, CallbackServer.isCleared]
  obtain ⟨hRejAct, hClear⟩ := hMain
  exact ⟨hRejAct, hClear, (handleRequests_cleared_no_resolve reqs _ hClear).1⟩

/-- Witness for C10: after a concrete CSRF-mismatch rejection, a later
callback carrying the previously-correct code and state resolves nothing. -/
theorem c10_single_shot_on_failure_witness :
    ((CallbackServer.start "good").hasReject = true)
    ∧ (isRejectAction ((CallbackServer.start "good").handleRequest
          { pathname := "/callback", code := some "c", state := some "evil" }).2.1 = true
      ∧ ((CallbackServer.start "good").handleRequest
          { pathname := "/callback", code := some "c", state := some "evil" }).1.isCleared = true
      ∧ ∀ a ∈ (((CallbackServer.start "good").handleRequest
            { pathname := "/callback", code := some "c", state := some "evil" }).1.handleRequests
            [{ pathname := "/callback", code := some "c", state := some "good" }]).2,
          isResolveAction a = false) :=
  ⟨rfl,
   c10_single_shot_on_failure (CallbackServer.start "good")
     { pathname := "/callback", code := some "c", state := some "evil" }
     [{ pathname := "/callback", code := some "c", state := some "good" }]
     rfl rfl (Or.inr (Or.inr (Or.inr (by decide))))⟩

/-! ### C7 — idempotent authorization URL -/

/-- After any `getAuthorizationUrl` call the recorded pending URL is
exactly the returned URL. -/
lemma getAuthorizationUrl_currentAuthUrl (m : OAuthManager) (f : String) (n : Int) :
    (m.getAuthorizationUrl f n).2.currentAuthUrl
      = some ((m.getAuthorizationUrl f n).1) := by
  simp only [OAuthManager.getAuthorizationUrl]
  split_ifs with h h2
  · obtain ⟨hs, hu, hc⟩ := h
    obtain ⟨a, ha⟩ := Option.isSome_iff_exists.mp hu
    simp_all
  · rfl
  · rfl

/-- While the manager holds a valid pending request (pending state, not
timed out, URL and CSRF state recorded), `getAuthorizationUrl` returns the
stored URL and leaves the whole manager unchanged. -/
lemma getAuthorizationUrl_of_validPending (m : OAuthManager) (f : String) (n : Int)
    (h : m.validPendingAt n = true) :
    m.getAuthorizationUrl f n = (m.currentAuthUrl.getD "", m) := by
  simp only [OAuthManager.validPendingAt, decide_eq_true_eq] at h
  obtain ⟨hPend, hTo, hUrl, hSt⟩ := h
  simp only [Bool.not_eq_true] at hTo
  have hGS : m.stateManager.getState n = (AuthState.pending, m.stateManager) := by
    simp [AuthStateManager.getState, hPend, hTo]
  simp [OAuthManager.getAuthorizationUrl, hGS, hUrl, hSt]

/-- Claim C7 (confirmed): a second `getAuthorizationUrl` call made while
the first request is still pending and unexpired returns the identical URL
and leaves the manager unchanged — in particular no second callback server
is created (`serversStarted` does not grow). -/
theorem c7_idempotent_authorization_url (m : OAuthManager) (f1 f2 : String)
    (n1 n2 : Int)
    (h : (m.getAuthorizationUrl f1 n1).2.validPendingAt n2 = true) :
    (((m.getAuthorizationUrl f1 n1).2.getAuthorizationUrl f2 n2).1
        = (m.getAuthorizationUrl f1 n1).1)
    ∧ (((m.getAuthorizationUrl f1 n1).2.getAuthorizationUrl f2 n2).2
        = (m.getAuthorizationUrl f1 n1).2)
    ∧ (((m.getAuthorizationUrl f1 n1).2.getAuthorizationUrl f2 n2).2.serversStarted
        = (m.getAuthorizationUrl f1 n1).2.serversStarted) := by
  have hstep := getAuthorizationUrl_of_validPending (m.getAuthorizationUrl f1 n1).2 f2 n2 h
  have hurl := getAuthorizationUrl_currentAuthUrl m f1 n1
  refine ⟨?_, ?_, ?_⟩
  · rw [hstep]
    simp [hurl]
  · rw [hstep]
  · rw [hstep]

/-- The manager state right after a first `getAuthorizationUrl` call on a
freshly constructed, token-less process. -/
def pendingManagerFixture : OAuthManager :=
  ((OAuthManager.construct idHash sampleConfig "china" FileState.missing 0).1.getAuthorizationUrl
    "st1" 0).2

/-- The URL returned by that first call. -/
def firstUrlFixture : String :=
  ((OAuthManager.construct idHash sampleConfig "china" FileState.missing 0).1.getAuthorizationUrl
    "st1" 0).1

/-- Witness for C7: starting from a freshly constructed manager with no
persisted token, the second call one second later returns the same URL and
the same manager state. -/
theorem c7_idempotent_authorization_url_witness :
    pendingManagerFixture.validPendingAt 1000 = true
    ∧ ((pendingManagerFixture.getAuthorizationUrl "st2" 1000).1 = firstUrlFixture
      ∧ (pendingManagerFixture.getAuthorizationUrl "st2" 1000).2 = pendingManagerFixture
      ∧ (pendingManagerFixture.getAuthorizationUrl "st2" 1000).2.serversStarted
          = pendingManagerFixture.serversStarted) :=
  ⟨by decide,
   c7_idempotent_authorization_url
     (OAuthManager.construct idHash sampleConfig "china" FileState.missing 0).1
     "st1" "st2" 0 1000 (by decide)⟩

end Dida365
